import Mathlib

/-!
ScribeAI: shallow embedding of the session streaming/state coordinator.

Verification development for the WebSocket server module of ScribeAI
(`src/server/index.ts`).  The embedding models:

* the `AudioProcessor` bounded audio buffer (chunks, byte counter,
  half-eviction on overflow, merge of chunks);
* the transcript flattening and client-transcript fallback logic of the
  `stop-recording` handler;
* the event handlers (`start-recording`, `audio-chunk`,
  `pause-recording`, `resume-recording`, `stop-recording`) as pure
  transition functions on an explicit server state, with the external
  transcription/summarization collaborators passed in as oracle results
  and the persistence layer modelled as association lists.

Raw audio payloads (`ArrayBuffer`) are modelled as `List Nat` (the byte
sequence); `byteLength` is the list length.  JavaScript numbers holding
byte counters are modelled as `Int` (so that the `-=` in
`clearOldestChunks` is exact subtraction, as in the source).  JavaScript
string truthiness (`s ? … : …` is the false branch exactly when `s` is
absent or empty) is modelled explicitly at each use site.
-/

namespace ScribeAI

/-! Section: string helpers (JavaScript `String.prototype.includes`). -/

/-- Boolean test that `p` is an initial segment of `s` (on character lists). -/
def listStartsWith : List Char → List Char → Bool
  | [], _ => true
  | _ :: _, [] => false
  | a :: as, b :: bs => a == b && listStartsWith as bs

/-- Boolean test that pattern `p` occurs contiguously inside `s`
(on character lists): some suffix of `s` starts with `p`. -/
def listHasSub (p : List Char) : List Char → Bool
  | [] => listStartsWith p []
  | c :: rest => listStartsWith p (c :: rest) || listHasSub p rest

/-- JavaScript `s.includes(pat)`: `pat` occurs as a contiguous substring of `s`. -/
def strHasSub (s pat : String) : Bool :=
  listHasSub pat.toList s.toList

/-! Section: bounded audio buffer (`AudioProcessor`, src/server/index.ts lines 255-355). -/

/-- The 10 MiB buffer ceiling `maxBufferSize = 10 * 1024 * 1024`
(src/server/index.ts line 258). -/
def maxBufferSize : Nat := 10 * 1024 * 1024

/-- Sum of the byte lengths of a list of chunks, written as the source's
`reduce((sum, chunk) => sum + chunk.byteLength, 0)` fold. -/
def sumBytes (cs : List (List Nat)) : Nat :=
  cs.foldl (fun s c => s + c.length) 0

/-- The `AudioProcessor` buffer state: the ordered chunk list and the
tracked byte counter `currentBufferSize` (a JavaScript number, modelled
as `Int`). -/
structure AudioProcessor where
  chunks : List (List Nat)
  currentBufferSize : Int
  deriving DecidableEq

/-- A freshly constructed `AudioProcessor`: no chunks, zero counter. -/
def AudioProcessor.empty : AudioProcessor :=
  { chunks := [], currentBufferSize := 0 }

/-- Model of `clearOldestChunks` (lines 301-307): splice off the first
`⌊length/2⌋` chunks and subtract their total byte length from the
counter. -/
def AudioProcessor.clearOldestChunks (p : AudioProcessor) : AudioProcessor :=
  let halfSize := p.chunks.length / 2
  let removedChunks := p.chunks.take halfSize
  let removedSize := sumBytes removedChunks
  { chunks := p.chunks.drop halfSize,
    currentBufferSize := p.currentBufferSize - (removedSize : Int) }

/-- Model of `addChunk` (lines 266-278): if the counter plus the incoming chunk's
byte length exceeds the ceiling, first run `clearOldestChunks`; then
push the chunk, add its length to the counter, and return `true`. -/
def AudioProcessor.addChunk (p : AudioProcessor) (chunk : List Nat) :
    AudioProcessor × Bool :=
  let chunkSize := chunk.length
  let p' := if p.currentBufferSize + (chunkSize : Int) > (maxBufferSize : Int)
            then p.clearOldestChunks else p
  ({ chunks := p'.chunks ++ [chunk],
     currentBufferSize := p'.currentBufferSize + (chunkSize : Int) }, true)

/-- Model of `clear` (lines 293-296): discard all chunks, reset the counter. -/
def AudioProcessor.clear (_p : AudioProcessor) : AudioProcessor :=
  { chunks := [], currentBufferSize := 0 }

/-- Model of `getAndClearChunks` (lines 284-288): return a copy of the chunk list
and the cleared buffer. -/
def AudioProcessor.getAndClearChunks (p : AudioProcessor) :
    List (List Nat) × AudioProcessor :=
  (p.chunks, p.clear)

/-- Model of `getBufferSize` (lines 312-314). -/
def AudioProcessor.getBufferSize (p : AudioProcessor) : Int :=
  p.currentBufferSize

/-- Model of `getChunkCount` (lines 319-321). -/
def AudioProcessor.getChunkCount (p : AudioProcessor) : Nat :=
  p.chunks.length

/-- One step of `Uint8Array.prototype.set(src, offset)` on a byte list:
overwrite `src.length` bytes of `dst` starting at `offset` (always
in range in `mergeChunks`). -/
def writeAt (dst src : List Nat) (offset : Nat) : List Nat :=
  dst.take offset ++ src ++ dst.drop (offset + src.length)

/-- Model of `mergeChunks` (lines 328-339): allocate a zeroed buffer of the total
length, then copy each chunk in at a running offset. -/
def AudioProcessor.mergeChunks (chunks : List (List Nat)) : List Nat :=
  let totalLength := sumBytes chunks
  let merged := List.replicate totalLength 0
  (chunks.foldl (fun acc c => (writeAt acc.1 c acc.2, acc.2 + c.length))
    (merged, 0)).1

/-! Section: transcript data and flattening (src/server/index.ts lines 163-179). -/

/-- Model of `TranscriptChunk` (src/types): timestamp in ms, text, optional
speaker label (`speaker?: string`). -/
structure TranscriptChunk where
  timestamp : Nat
  text : String
  speaker : Option String
  deriving DecidableEq

/-- One fragment of the flattening at line 164:
`` `${c.speaker ? c.speaker + ": " : ""}${c.text}` ``.  In JavaScript
`c.speaker ? …` takes the true branch exactly when the label is present
and non-empty. -/
def renderChunk (c : TranscriptChunk) : String :=
  (match c.speaker with
   | some sp => if sp = "" then "" else sp ++ ": "
   | none => "") ++ c.text

/-- Line 164: `chunks.map(…).join("\n")`. -/
def flattenTranscript (cs : List TranscriptChunk) : String :=
  String.intercalate "\n" (cs.map renderChunk)

/-- The literal placeholder marker produced by the mock transcription
path (src/lib/gemini.ts line 30) and tested at line 167. -/
def mockMarker : String := "Mock transcription"

/-- Lines 167-170: replace the flattened text by `clientTranscript` when
`clientTranscript` is truthy (present and non-empty) and the flattened
text is empty or contains the mock marker. -/
def resolveTranscript (full : String) (clientTranscript : Option String) : String :=
  match clientTranscript with
  | some ct =>
      if ct ≠ "" ∧ (full = "" ∨ strHasSub full mockMarker = true) then ct else full
  | none => full

/-- Line 176: `content: fullTranscript || "No transcript available"`. -/
def persistedContent (t : String) : String :=
  if t = "" then "No transcript available" else t

/-! Section: server state and persisted records. -/

/-- Session lifecycle states (src/types `SessionStatus`). -/
inductive SessionStatus where
  | IDLE | RECORDING | PAUSED | PROCESSING | COMPLETED | ERROR
  deriving DecidableEq

/-- The persisted Session record fields the handlers read or write. -/
structure SessionRecord where
  userId : String
  audioSource : String
  title : String
  status : SessionStatus
  duration : Nat
  deriving DecidableEq

/-- A persisted Transcript record (lines 173-179). -/
structure TranscriptRecord where
  sessionId : String
  content : String
  chunks : List TranscriptChunk
  deriving DecidableEq

/-- The summarization collaborator's result shape
(src/lib/gemini.ts `MeetingSummary`). -/
structure MeetingSummary where
  content : String
  keyPoints : List String
  actionItems : List String
  decisions : List String
  deriving DecidableEq

/-- A persisted Summary record (lines 187-195). -/
structure SummaryRecord where
  sessionId : String
  content : String
  keyPoints : List String
  actionItems : List String
  decisions : List String
  deriving DecidableEq

/-- Association-list lookup, modelling `Map.get` and the record store's
lookup by unique key. -/
def findEntry {α : Type} (k : String) : List (String × α) → Option α
  | [] => none
  | (k', v) :: rest => if k' = k then some v else findEntry k rest

/-- Association-list insert-or-overwrite, modelling `Map.set`. -/
def setEntry {α : Type} (k : String) (v : α) : List (String × α) → List (String × α)
  | [] => [(k, v)]
  | (k', v') :: rest => if k' = k then (k, v) :: rest else (k', v') :: setEntry k v rest

/-- Association-list removal of the entry for `k`, modelling `Map.delete`. -/
def removeEntry {α : Type} (k : String) : List (String × α) → List (String × α)
  | [] => []
  | (k', v') :: rest => if k' = k then rest else (k', v') :: removeEntry k rest

/-- Model of `prisma.session.update`: succeeds (returning the new table) when the
key is present, throws (modelled as `none`) when it is not. -/
def updateSession (db : List (String × SessionRecord)) (k : String)
    (f : SessionRecord → SessionRecord) :
    Option (List (String × SessionRecord)) :=
  match findEntry k db with
  | none => none
  | some r => some (setEntry k (f r) db)

/-- The whole server state: the two in-memory registries
(`sessionProcessors`, `sessionTranscripts`, lines 22-23) and the three
persisted tables. -/
structure ServerState where
  sessionProcessors : List (String × AudioProcessor)
  sessionTranscripts : List (String × List TranscriptChunk)
  dbSessions : List (String × SessionRecord)
  dbTranscripts : List TranscriptRecord
  dbSummaries : List SummaryRecord
  deriving DecidableEq

/-- The state before any session exists. -/
def initialState : ServerState :=
  { sessionProcessors := [], sessionTranscripts := [],
    dbSessions := [], dbTranscripts := [], dbSummaries := [] }

/-- Outbound protocol events. -/
inductive ServerEvent where
  | sessionCreated (sessionId : String)
  | transcriptionUpdate (sessionId : String) (chunk : TranscriptChunk)
  | statusUpdate (sessionId : String) (status : SessionStatus)
  | processingComplete (sessionId : String) (downloadUrl : String)
  | errorMsg (message : String)
  deriving DecidableEq

/-- An emission: either `socket.emit` (to the originating connection
only) or `io.to(room).emit` (broadcast to the session's room). -/
inductive Outbound where
  | toSender (e : ServerEvent)
  | toRoom (sessionId : String) (e : ServerEvent)
  deriving DecidableEq

/-! Section: event handlers (src/server/index.ts lines 31-233).

External collaborators are passed in as oracle results: the
transcription call as an `Except Unit TranscriptChunk` (a rejected
promise is `Except.error`), the summarization call as an
`Except Unit MeetingSummary`, and the success of the Summary insert as
a `Bool`.  Persistence of Session records fails exactly on an unknown
key (`prisma…update` throws, which the handlers catch). -/

/-- Handler for `start-recording` (lines 31-59): create a durable session record
(status `RECORDING`, duration 0), initialize the two registry entries,
emit `session-created`.  The server-generated id is a parameter. -/
def startRecording (st : ServerState) (newId userId audioSource title : String) :
    ServerState × List Outbound :=
  ({ st with
      dbSessions := st.dbSessions ++
        [(newId, { userId := userId, audioSource := audioSource,
                   title := title, status := SessionStatus.RECORDING,
                   duration := 0 })],
      sessionProcessors := setEntry newId AudioProcessor.empty st.sessionProcessors,
      sessionTranscripts := setEntry newId [] st.sessionTranscripts },
   [Outbound.toSender (ServerEvent.sessionCreated newId)])

/-- Handler for `audio-chunk` (lines 64-105): look up the session's processor — if
absent, emit `error` and stop; otherwise buffer the chunk, then (inner
try) append the transcription result to the accumulator, broadcast
`transcription-update` and persist the running duration
(`Math.floor(timestamp / 1000)`); a rejected transcription call or a
failed duration update is swallowed. -/
def audioChunkHandler (st : ServerState) (sessionId : String)
    (chunk : List Nat) (timestamp : Nat)
    (transcribeResult : Except Unit TranscriptChunk) :
    ServerState × List Outbound :=
  match findEntry sessionId st.sessionProcessors with
  | none => (st, [Outbound.toSender (ServerEvent.errorMsg "Session not found")])
  | some proc =>
      let st1 := { st with
        sessionProcessors :=
          setEntry sessionId (proc.addChunk chunk).1 st.sessionProcessors }
      match transcribeResult with
      | Except.error _ => (st1, [])
      | Except.ok tc =>
          let chunks := (findEntry sessionId st1.sessionTranscripts).getD []
          let st2 := { st1 with
            sessionTranscripts :=
              setEntry sessionId (chunks ++ [tc]) st1.sessionTranscripts }
          let ev := [Outbound.toRoom sessionId
                      (ServerEvent.transcriptionUpdate sessionId tc)]
          match updateSession st2.dbSessions sessionId
                  (fun r => { r with duration := timestamp / 1000 }) with
          | some db => ({ st2 with dbSessions := db }, ev)
          | none => (st2, ev)

/-- Handler for `pause-recording` (lines 110-125): persist status `PAUSED`
unconditionally and broadcast `status-update`; if the update throws
(unknown id), emit `error` to the sender instead. -/
def pauseRecording (st : ServerState) (sessionId : String) :
    ServerState × List Outbound :=
  match updateSession st.dbSessions sessionId
          (fun r => { r with status := SessionStatus.PAUSED }) with
  | some db =>
      ({ st with dbSessions := db },
       [Outbound.toRoom sessionId
          (ServerEvent.statusUpdate sessionId SessionStatus.PAUSED)])
  | none => (st, [Outbound.toSender (ServerEvent.errorMsg "Failed to pause recording")])

/-- Handler for `resume-recording` (lines 130-145): persist status `RECORDING`
unconditionally and broadcast `status-update`; on an unknown id emit
`error` to the sender. -/
def resumeRecording (st : ServerState) (sessionId : String) :
    ServerState × List Outbound :=
  match updateSession st.dbSessions sessionId
          (fun r => { r with status := SessionStatus.RECORDING }) with
  | some db =>
      ({ st with dbSessions := db },
       [Outbound.toRoom sessionId
          (ServerEvent.statusUpdate sessionId SessionStatus.RECORDING)])
  | none => (st, [Outbound.toSender (ServerEvent.errorMsg "Failed to resume recording")])

/-- The duration written by the final update of `stop-recording`
(line 205): `...(duration ? { duration } : {})` — a supplied `0` is
falsy and leaves the stored duration unchanged. -/
def stopDuration (supplied : Option Nat) (stored : Nat) : Nat :=
  match supplied with
  | some d => if d = 0 then stored else d
  | none => stored

/-- Handler for `stop-recording` (lines 150-233): set status `PROCESSING` (an
unknown id throws into the catch block: `error` to sender, and the
best-effort `ERROR` update throws again and is only logged); broadcast
`status-update(PROCESSING)`; flatten the accumulator, apply the
client-transcript fallback, persist the Transcript record; invoke the
summarization collaborator and persist a Summary record when both the
call and the insert succeed (any failure is caught and ignored); set
status `COMPLETED` (overwriting duration when the supplied value is
truthy); delete both registry entries; broadcast `processing-complete`
then `status-update(COMPLETED)`. -/
def stopRecording (st : ServerState) (sessionId : String)
    (clientTranscript : Option String) (duration : Option Nat)
    (summaryResult : Except Unit MeetingSummary) (summaryInsertOk : Bool) :
    ServerState × List Outbound :=
  match updateSession st.dbSessions sessionId
          (fun r => { r with status := SessionStatus.PROCESSING }) with
  | none =>
      (st, [Outbound.toSender (ServerEvent.errorMsg "Failed to stop recording")])
  | some db1 =>
      let ev1 := Outbound.toRoom sessionId
        (ServerEvent.statusUpdate sessionId SessionStatus.PROCESSING)
      let chunks := (findEntry sessionId st.sessionTranscripts).getD []
      let fullTranscript := resolveTranscript (flattenTranscript chunks) clientTranscript
      let dbT := st.dbTranscripts ++
        [{ sessionId := sessionId, content := persistedContent fullTranscript,
           chunks := chunks }]
      let dbSum :=
        match summaryResult with
        | Except.error _ => st.dbSummaries
        | Except.ok s =>
            if summaryInsertOk then
              st.dbSummaries ++
                [{ sessionId := sessionId, content := s.content,
                   keyPoints := s.keyPoints, actionItems := s.actionItems,
                   decisions := s.decisions }]
            else st.dbSummaries
      match updateSession db1 sessionId
              (fun r => { r with status := SessionStatus.COMPLETED,
                                 duration := stopDuration duration r.duration }) with
      | none =>
          ({ st with dbSessions := db1, dbTranscripts := dbT, dbSummaries := dbSum },
           [ev1, Outbound.toSender (ServerEvent.errorMsg "Failed to stop recording")])
      | some db2 =>
          ({ sessionProcessors := removeEntry sessionId st.sessionProcessors,
             sessionTranscripts := removeEntry sessionId st.sessionTranscripts,
             dbSessions := db2, dbTranscripts := dbT, dbSummaries := dbSum },
           [ev1,
            Outbound.toRoom sessionId
              (ServerEvent.processingComplete sessionId
                ("/api/sessions/" ++ sessionId ++ "/download")),
            Outbound.toRoom sessionId
              (ServerEvent.statusUpdate sessionId SessionStatus.COMPLETED)])

/-! Section: auxiliary definitions used by the theorems. -/

/-- Split a byte list back at the given fragment sizes (the inverse
direction of `mergeChunks`'s concatenation). -/
def splitSizes : List Nat → List Nat → List (List Nat)
  | [], _ => []
  | n :: ns, bs => bs.take n :: splitSizes ns (bs.drop n)

/-- Modelled from the claim's words for C3: render
`"speaker: text"` whenever the speaker label is *present* (also when it
is the empty label), else just the text. -/
def claimRenderC3 (c : TranscriptChunk) : String :=
  match c.speaker with
  | some sp => sp ++ ": " ++ c.text
  | none => c.text

/-- Flattening under the claim's rendering rule for C3. -/
def claimFlattenC3 (cs : List TranscriptChunk) : String :=
  String.intercalate "\n" (cs.map claimRenderC3)

/-- Amended rendering rule for C3: render `"speaker: text"` exactly when
the speaker label is present *and non-empty* (JavaScript truthiness of
`c.speaker`), else just the text. -/
def amendedRender (c : TranscriptChunk) : String :=
  match c.speaker with
  | some sp => if sp = "" then c.text else sp ++ ": " ++ c.text
  | none => c.text

/-- Amended content rule for C2, written from the amended claim's words:
the persisted content is the client-supplied transcript whenever it is
supplied *non-empty* and the flattened text is empty or contains the
mock marker; otherwise the flattened text when non-empty; otherwise
`"No transcript available"`. -/
def amendedContentRule (clientTranscript : Option String)
    (cs : List TranscriptChunk) : String :=
  let full := flattenTranscript cs
  match clientTranscript with
  | some ct =>
      if ct ≠ "" ∧ (full = "" ∨ strHasSub full mockMarker = true) then ct
      else if full = "" then "No transcript available" else full
  | none => if full = "" then "No transcript available" else full

/-- The operations a client of `AudioProcessor` can perform on one
buffer (C10 quantifies over all sequences of these). -/
inductive BufferOp where
  | add (chunk : List Nat)
  | clear
  | drain
  deriving DecidableEq

/-- Apply one buffer operation. -/
def applyOp (p : AudioProcessor) : BufferOp → AudioProcessor
  | BufferOp.add c => (p.addChunk c).1
  | BufferOp.clear => p.clear
  | BufferOp.drain => p.getAndClearChunks.2

/-- Run a sequence of buffer operations from the empty buffer. -/
def runOps (ops : List BufferOp) : AudioProcessor :=
  ops.foldl applyOp AudioProcessor.empty

/-- The tracked byte counter agrees with the actual buffered bytes. -/
def synced (p : AudioProcessor) : Prop :=
  p.currentBufferSize = ((p.chunks.map List.length).sum : Int)

/-- A 6,000,000-byte audio chunk (small enough for the 10 MB transport
cap, but two of them overflow the 10 MiB = 10,485,760-byte ceiling). -/
def overBigChunk : List Nat := List.replicate 6000000 0

/-- A concrete buffer at the ceiling, holding two chunks, used to
exercise the eviction path. -/
def evictDemoProc : AudioProcessor :=
  { chunks := [[0], [1]], currentBufferSize := 10485760 }

/-- A concrete server state holding one already-`COMPLETED` persisted
session that is no longer in the in-memory registry. -/
def completedOnlyState : ServerState :=
  { sessionProcessors := [], sessionTranscripts := [],
    dbSessions := [("s1",
      { userId := "u1", audioSource := "microphone", title := "T",
        status := SessionStatus.COMPLETED, duration := 7 })],
    dbTranscripts := [], dbSummaries := [] }

/-- A concrete persisted session record in the `RECORDING` state with
duration 5. -/
def recordingRecord : SessionRecord :=
  { userId := "u1", audioSource := "microphone", title := "T",
    status := SessionStatus.RECORDING, duration := 5 }

/-- A concrete server state holding one active `RECORDING` session whose
persisted duration is 5. -/
def recordingState : ServerState :=
  { sessionProcessors := [("s1", AudioProcessor.empty)],
    sessionTranscripts := [("s1", [])],
    dbSessions := [("s1", recordingRecord)],
    dbTranscripts := [], dbSummaries := [] }

/-- The session record created by `start-recording` for the immediate
start-then-stop scenario. -/
def startedRecord : SessionRecord :=
  { userId := "u0", audioSource := "tab", title := "T0",
    status := SessionStatus.RECORDING, duration := 0 }

/-- The server state right after `start-recording` created session
`"s0"` on a fresh server. -/
def startedState : ServerState :=
  (startRecording initialState "s0" "u0" "tab" "T0").1

/-! Section: helper lemmas. -/

lemma foldl_add_length (cs : List (List Nat)) (a : Nat) :
    cs.foldl (fun s c => s + c.length) a = a + (cs.map List.length).sum := by
  induction cs generalizing a with
  | nil => simp
  | cons c cs ih => simp [ih, Nat.add_assoc]

lemma sumBytes_eq (cs : List (List Nat)) :
    sumBytes cs = (cs.map List.length).sum := by
  simp [sumBytes, foldl_add_length]

lemma sumBytes_cons (c : List Nat) (cs : List (List Nat)) :
    sumBytes (c :: cs) = c.length + sumBytes cs := by
  simp [sumBytes_eq]

lemma findEntry_setEntry_self {α : Type} (k : String) (v : α)
    (l : List (String × α)) : findEntry k (setEntry k v l) = some v := by
  induction l with
  | nil => simp [setEntry, findEntry]
  | cons e rest ih =>
      by_cases h : e.1 = k
      · simp [setEntry, findEntry, h]
      · simp [setEntry, findEntry, h, ih]

lemma sum_map_length_take_drop (cs : List (List Nat)) (n : Nat) :
    ((cs.take n).map List.length).sum + ((cs.drop n).map List.length).sum
      = (cs.map List.length).sum := by
  conv_rhs => rw [← List.take_append_drop n cs]
  simp

lemma synced_clearOldestChunks (p : AudioProcessor) (h : synced p) :
    synced p.clearOldestChunks := by
  unfold synced AudioProcessor.clearOldestChunks
  simp only [sumBytes_eq]
  unfold synced at h
  rw [h, ← sum_map_length_take_drop p.chunks (p.chunks.length / 2)]
  omega

lemma synced_push (q : AudioProcessor) (c : List Nat) (hq : synced q) :
    synced ({ chunks := q.chunks ++ [c],
              currentBufferSize := q.currentBufferSize + (c.length : Int) } :
            AudioProcessor) := by
  unfold synced at hq ⊢
  simp [hq]

lemma synced_addChunk (p : AudioProcessor) (c : List Nat) (h : synced p) :
    synced (p.addChunk c).1 := by
  simp only [AudioProcessor.addChunk]
  by_cases hov : p.currentBufferSize + (c.length : Int) > (maxBufferSize : Int)
  · rw [if_pos hov]
    exact synced_push _ c (synced_clearOldestChunks p h)
  · rw [if_neg hov]
    exact synced_push _ c h

lemma synced_applyOp (p : AudioProcessor) (op : BufferOp) (h : synced p) :
    synced (applyOp p op) := by
  cases op with
  | add c => exact synced_addChunk p c h
  | clear => simp [applyOp, AudioProcessor.clear, synced]
  | drain => simp [applyOp, AudioProcessor.getAndClearChunks, AudioProcessor.clear, synced]

lemma synced_foldl (ops : List BufferOp) (p : AudioProcessor) (h : synced p) :
    synced (ops.foldl applyOp p) := by
  induction ops generalizing p with
  | nil => exact h
  | cons op ops ih => exact ih (applyOp p op) (synced_applyOp p op h)

lemma writeAt_step (done c : List Nat) (S : Nat) :
    writeAt (done ++ List.replicate (c.length + S) 0) c done.length
      = (done ++ c) ++ List.replicate S 0 := by
  unfold writeAt
  rw [List.take_left]
  have hdrop : (done ++ List.replicate (c.length + S) 0).drop (done.length + c.length)
      = List.replicate S 0 := by
    rw [List.drop_append, List.drop_replicate]
    congr 1
    omega
  rw [hdrop]

lemma mergeChunks_aux (cs : List (List Nat)) (done : List Nat) :
    (cs.foldl (fun acc c => (writeAt acc.1 c acc.2, acc.2 + c.length))
        (done ++ List.replicate (sumBytes cs) 0, done.length)).1
      = done ++ cs.flatten := by
  induction cs generalizing done with
  | nil => simp [sumBytes]
  | cons c cs ih =>
      rw [sumBytes_cons]
      simp only [List.foldl_cons]
      rw [writeAt_step, ← List.length_append done c]
      rw [ih (done ++ c)]
      simp [List.append_assoc]

lemma mergeChunks_eq_flatten (cs : List (List Nat)) :
    AudioProcessor.mergeChunks cs = cs.flatten := by
  have h := mergeChunks_aux cs []
  simpa [AudioProcessor.mergeChunks] using h

lemma splitSizes_flatten (cs : List (List Nat)) :
    splitSizes (cs.map List.length) cs.flatten = cs := by
  induction cs with
  | nil => simp [splitSizes]
  | cons c cs ih => simp [splitSizes, List.take_left, List.drop_left, ih]

lemma renderChunk_eq_amended (c : TranscriptChunk) :
    renderChunk c = amendedRender c := by
  cases hc : c.speaker with
  | none => simp [renderChunk, amendedRender, hc]
  | some sp =>
      by_cases hsp : sp = "" <;>
        simp [renderChunk, amendedRender, hc, hsp, String.append_assoc]

lemma persisted_eq_amended (ct : Option String) (cs : List TranscriptChunk) :
    persistedContent (resolveTranscript (flattenTranscript cs) ct)
      = amendedContentRule ct cs := by
  cases ct with
  | none =>
      simp [resolveTranscript, persistedContent, amendedContentRule]
  | some c =>
      by_cases hc : c = ""
      · simp [resolveTranscript, persistedContent, amendedContentRule, hc]
      · by_cases hm : flattenTranscript cs = "" ∨
            strHasSub (flattenTranscript cs) mockMarker = true
        · simp [resolveTranscript, persistedContent, amendedContentRule, hc, hm]
        · rcases not_or.mp hm with ⟨hm1, hm2⟩
          simp [resolveTranscript, persistedContent, amendedContentRule,
            hc, hm1, hm2]

lemma stopRecording_found (st : ServerState) (sid : String)
    (ct : Option String) (dur : Option Nat)
    (sr : Except Unit MeetingSummary) (ok : Bool)
    (r : SessionRecord) (h : findEntry sid st.dbSessions = some r) :
    stopRecording st sid ct dur sr ok =
      ({ sessionProcessors := removeEntry sid st.sessionProcessors,
         sessionTranscripts := removeEntry sid st.sessionTranscripts,
         dbSessions :=
           setEntry sid
             { r with status := SessionStatus.COMPLETED,
                      duration := stopDuration dur r.duration }
             (setEntry sid { r with status := SessionStatus.PROCESSING }
               st.dbSessions),
         dbTranscripts := st.dbTranscripts ++
           [{ sessionId := sid,
              content := persistedContent (resolveTranscript
                (flattenTranscript ((findEntry sid st.sessionTranscripts).getD []))
                ct),
              chunks := (findEntry sid st.sessionTranscripts).getD [] }],
         dbSummaries :=
           match sr with
           | Except.error _ => st.dbSummaries
           | Except.ok s =>
               if ok then
                 st.dbSummaries ++
                   [{ sessionId := sid, content := s.content,
                      keyPoints := s.keyPoints, actionItems := s.actionItems,
                      decisions := s.decisions }]
               else st.dbSummaries },
       [Outbound.toRoom sid (ServerEvent.statusUpdate sid SessionStatus.PROCESSING),
        Outbound.toRoom sid
          (ServerEvent.processingComplete sid
            ("/api/sessions/" ++ sid ++ "/download")),
        Outbound.toRoom sid
          (ServerEvent.statusUpdate sid SessionStatus.COMPLETED)]) := by
  simp [stopRecording, updateSession, h, findEntry_setEntry_self]

/-! Section: claim theorems. -/

/-- C1 (code bug evidence): the 10 MiB ceiling is *not* an invariant of
`addChunk`.  Starting from the empty buffer, two 6,000,000-byte chunks
(each under the 10 MB transport cap) leave `getBufferSize` at
12,000,000 bytes, strictly above the ceiling `maxBufferSize =
10,485,760`: the triggered eviction pass removes `⌊1/2⌋ = 0` chunks and
the new chunk is appended regardless. -/
theorem addChunk_exceeds_ceiling_at_failing_input :
    ((AudioProcessor.empty.addChunk overBigChunk).1.addChunk overBigChunk).1.getBufferSize
        = (12000000 : Int) ∧
    (12000000 : Int) > (maxBufferSize : Int) := by
  have hlen : overBigChunk.length = 6000000 := by
    unfold overBigChunk
    exact List.length_replicate 6000000 0
  have h1 : AudioProcessor.empty.addChunk overBigChunk
      = ({ chunks := [overBigChunk], currentBufferSize := 6000000 }, true) := by
    unfold AudioProcessor.addChunk AudioProcessor.empty
    rw [hlen]
    norm_num [maxBufferSize]
  have h2 : (({ chunks := [overBigChunk], currentBufferSize := 6000000 } :
      AudioProcessor).addChunk overBigChunk)
      = ({ chunks := [overBigChunk, overBigChunk],
           currentBufferSize := 12000000 }, true) := by
    unfold AudioProcessor.addChunk AudioProcessor.clearOldestChunks
    rw [hlen]
    norm_num [maxBufferSize, sumBytes]
  constructor
  · rw [h1]
    dsimp only
    rw [h2]
    rfl
  · norm_num [maxBufferSize]

/-- C2 counterexample: the claim reads the persisted content as the
client-supplied `clientTranscript` *whenever it is provided* and the
flattened text is empty — but a provided empty-string `clientTranscript`
is falsy in JavaScript, so the code persists `"No transcript available"`,
not the provided `""`: start a session, then stop it with
`clientTranscript = ""` and no audio chunks. -/
theorem stop_content_clientTranscript_counterexample :
    (stopRecording startedState "s0" (some "") none (Except.error ()) true).1.dbTranscripts
      = [{ sessionId := "s0", content := "No transcript available", chunks := [] }] ∧
    ("No transcript available" : String) ≠ "" := by
  constructor
  · decide
  · decide

/-- C2 (amended): the persisted Transcript content follows the claimed
rule with "provided" strengthened to "provided and non-empty" (JavaScript
truthiness of `clientTranscript`): it equals `clientTranscript` whenever
that is supplied non-empty and the flattened text is empty or contains
the `"Mock transcription"` marker; otherwise the flattened text when
non-empty; otherwise `"No transcript available"`.  The stop also
persists status `COMPLETED`. -/
theorem stop_persists_content_rule (st : ServerState) (sid : String)
    (ct : Option String) (dur : Option Nat)
    (sr : Except Unit MeetingSummary) (ok : Bool)
    (r : SessionRecord) (h : findEntry sid st.dbSessions = some r) :
    (stopRecording st sid ct dur sr ok).1.dbTranscripts =
      st.dbTranscripts ++
        [{ sessionId := sid,
           content := amendedContentRule ct
             ((findEntry sid st.sessionTranscripts).getD []),
           chunks := (findEntry sid st.sessionTranscripts).getD [] }] ∧
    findEntry sid (stopRecording st sid ct dur sr ok).1.dbSessions =
      some { r with status := SessionStatus.COMPLETED,
                    duration := stopDuration dur r.duration } := by
  rw [stopRecording_found st sid ct dur sr ok r h]
  constructor
  · simp [persisted_eq_amended]
  · simp [findEntry_setEntry_self]

/-- Witness for C2: the start-then-immediate-stop scenario (no audio
chunks, no client transcript) persists `"No transcript available"` and
reaches `COMPLETED`. -/
theorem stop_persists_content_rule_witness :
    findEntry "s0" startedState.dbSessions = some startedRecord ∧
    ((stopRecording startedState "s0" none none (Except.error ()) true).1.dbTranscripts
        = [{ sessionId := "s0", content := "No transcript available", chunks := [] }] ∧
      findEntry "s0"
          (stopRecording startedState "s0" none none (Except.error ()) true).1.dbSessions
        = some { userId := "u0", audioSource := "tab", title := "T0",
                 status := SessionStatus.COMPLETED, duration := 0 }) :=
  ⟨by decide,
   stop_persists_content_rule startedState "s0" none none (Except.error ()) true
     startedRecord (by decide)⟩

/-- C3 counterexample: the claim renders `"speaker: text"` whenever the
speaker label is *present*, but a present empty label is falsy in
JavaScript: the code renders `[{text := "hello", speaker := some ""}]`
as `"hello"`, while the claimed rule yields `": hello"`. -/
theorem flatten_speaker_presence_counterexample :
    flattenTranscript [{ timestamp := 0, text := "hello", speaker := some "" }]
      = "hello" ∧
    claimFlattenC3 [{ timestamp := 0, text := "hello", speaker := some "" }]
      = ": hello" ∧
    ("hello" : String) ≠ ": hello" := by
  refine ⟨by decide, by decide, by decide⟩

/-- C3 (amended): flattening renders each fragment as
`"speaker: text"` exactly when its speaker label is present *and
non-empty* (JavaScript truthiness), else as the bare text, joined by
newlines in accumulator order; the claim's concrete example is
unaffected. -/
theorem flatten_amended_rule (cs : List TranscriptChunk) :
    flattenTranscript cs = String.intercalate "\n" (cs.map amendedRender) ∧
    flattenTranscript
        [{ timestamp := 0, text := "hello", speaker := some "Speaker 1" },
         { timestamp := 1, text := "world", speaker := none }]
      = "Speaker 1: hello\nworld" := by
  constructor
  · unfold flattenTranscript
    rw [funext renderChunk_eq_amended]
  · decide

/-- C4: when an `addChunk` call triggers overflow handling (tracked
total before the append plus the new chunk's byte length exceeds the
ceiling), the resulting chunk list is the old list with exactly its
oldest `⌊n/2⌋` elements removed (`n` the count immediately before the
append) followed by the new chunk; the removed elements are precisely
the oldest prefix, the eviction count is exactly `⌊n/2⌋`, and the call
returns `true` (acceptance is never refused). -/
theorem addChunk_overflow_evicts (p : AudioProcessor) (c : List Nat)
    (h : p.currentBufferSize + (c.length : Int) > (maxBufferSize : Int)) :
    (p.addChunk c).1.chunks = p.chunks.drop (p.chunks.length / 2) ++ [c] ∧
    p.chunks.take (p.chunks.length / 2) ++ (p.addChunk c).1.chunks
      = p.chunks ++ [c] ∧
    (p.addChunk c).1.chunks.length + p.chunks.length / 2
      = p.chunks.length + 1 ∧
    (p.addChunk c).2 = true := by
  have hsel : (if p.currentBufferSize + (c.length : Int) > (maxBufferSize : Int)
      then p.clearOldestChunks else p) = p.clearOldestChunks := if_pos h
  simp only [AudioProcessor.addChunk]
  rw [hsel]
  simp only [AudioProcessor.clearOldestChunks]
  refine ⟨trivial, ?_, ?_, trivial⟩
  · rw [← List.append_assoc, List.take_append_drop]
  · have hle : p.chunks.length / 2 ≤ p.chunks.length := Nat.div_le_self _ _
    simp only [List.length_append, List.length_drop, List.length_cons,
      List.length_nil]
    omega

/-- Witness for C4: a buffer at the ceiling holding two one-byte chunks
receives a third chunk; the trigger fires, the oldest `⌊2/2⌋ = 1` chunk
is evicted, and the call returns `true`. -/
theorem addChunk_overflow_evicts_witness :
    evictDemoProc.currentBufferSize + (([5] : List Nat).length : Int)
        > (maxBufferSize : Int) ∧
    ((evictDemoProc.addChunk [5]).1.chunks =
        evictDemoProc.chunks.drop (evictDemoProc.chunks.length / 2) ++ [[5]] ∧
      evictDemoProc.chunks.take (evictDemoProc.chunks.length / 2) ++
          (evictDemoProc.addChunk [5]).1.chunks
        = evictDemoProc.chunks ++ [[5]] ∧
      (evictDemoProc.addChunk [5]).1.chunks.length +
          evictDemoProc.chunks.length / 2
        = evictDemoProc.chunks.length + 1 ∧
      (evictDemoProc.addChunk [5]).2 = true) :=
  ⟨by decide, addChunk_overflow_evicts evictDemoProc [5] (by decide)⟩

/-- C5 counterexample: the pause handler does not check the current
lifecycle state — applied to a session whose persisted status is
`COMPLETED` (and which is no longer in the registry), it still persists
`PAUSED`, so `PAUSED` is *not* produced only from `RECORDING`. -/
theorem pause_from_completed_counterexample :
    findEntry "s1" completedOnlyState.dbSessions =
      some { userId := "u1", audioSource := "microphone", title := "T",
             status := SessionStatus.COMPLETED, duration := 7 } ∧
    (pauseRecording completedOnlyState "s1").1.dbSessions =
      [("s1", { userId := "u1", audioSource := "microphone", title := "T",
                status := SessionStatus.PAUSED, duration := 7 })] ∧
    SessionStatus.COMPLETED ≠ SessionStatus.RECORDING := by
  refine ⟨by decide, by decide, by decide⟩

/-- C5 (amended): `pause` sets the persisted status of any *existing*
session to `PAUSED` and `resume` sets it to `RECORDING`, each emitting
the corresponding `status-update` and touching nothing else — the
handlers check no precondition, so in the intended flow they realise
`RECORDING → PAUSED` and `PAUSED → RECORDING`, but they perform the
same write from any other lifecycle state too. -/
theorem pause_resume_set_status_unconditionally (st : ServerState)
    (sid : String) (r : SessionRecord)
    (h : findEntry sid st.dbSessions = some r) :
    (pauseRecording st sid).1.dbSessions =
      setEntry sid { r with status := SessionStatus.PAUSED } st.dbSessions ∧
    (pauseRecording st sid).2 =
      [Outbound.toRoom sid (ServerEvent.statusUpdate sid SessionStatus.PAUSED)] ∧
    (resumeRecording st sid).1.dbSessions =
      setEntry sid { r with status := SessionStatus.RECORDING } st.dbSessions ∧
    (resumeRecording st sid).2 =
      [Outbound.toRoom sid (ServerEvent.statusUpdate sid SessionStatus.RECORDING)] ∧
    (pauseRecording st sid).1.sessionProcessors = st.sessionProcessors ∧
    (pauseRecording st sid).1.sessionTranscripts = st.sessionTranscripts := by
  simp [pauseRecording, resumeRecording, updateSession, h]

/-- Witness for C5 (amended): pausing the concrete `RECORDING` session
persists `PAUSED`; resuming it persists `RECORDING`. -/
theorem pause_resume_set_status_unconditionally_witness :
    findEntry "s1" recordingState.dbSessions = some recordingRecord ∧
    ((pauseRecording recordingState "s1").1.dbSessions =
        setEntry "s1" { recordingRecord with status := SessionStatus.PAUSED }
          recordingState.dbSessions ∧
      (pauseRecording recordingState "s1").2 =
        [Outbound.toRoom "s1"
          (ServerEvent.statusUpdate "s1" SessionStatus.PAUSED)] ∧
      (resumeRecording recordingState "s1").1.dbSessions =
        setEntry "s1" { recordingRecord with status := SessionStatus.RECORDING }
          recordingState.dbSessions ∧
      (resumeRecording recordingState "s1").2 =
        [Outbound.toRoom "s1"
          (ServerEvent.statusUpdate "s1" SessionStatus.RECORDING)] ∧
      (pauseRecording recordingState "s1").1.sessionProcessors =
        recordingState.sessionProcessors ∧
      (pauseRecording recordingState "s1").1.sessionTranscripts =
        recordingState.sessionTranscripts) :=
  ⟨by decide,
   pause_resume_set_status_unconditionally recordingState "s1" recordingRecord
     (by decide)⟩

/-- C6 counterexample: a session identifier absent from the registry but
still present in the persistence layer is *not* rejected by
`stop-recording`: no `error` is emitted (the three broadcasts go out)
and the state *is* changed (a Transcript record is persisted), refuting
the claim for this inbound event on an unknown (to the registry)
session. -/
theorem stale_session_stop_counterexample :
    findEntry "s1" completedOnlyState.sessionProcessors = none ∧
    (stopRecording completedOnlyState "s1" none none (Except.error ()) true).2 =
      [Outbound.toRoom "s1" (ServerEvent.statusUpdate "s1" SessionStatus.PROCESSING),
       Outbound.toRoom "s1"
         (ServerEvent.processingComplete "s1" "/api/sessions/s1/download"),
       Outbound.toRoom "s1" (ServerEvent.statusUpdate "s1" SessionStatus.COMPLETED)] ∧
    (stopRecording completedOnlyState "s1" none none (Except.error ()) true).1.dbTranscripts =
      [{ sessionId := "s1", content := "No transcript available", chunks := [] }] := by
  refine ⟨by decide, by decide, by decide⟩

/-- C6 (amended): `audio-chunk` on a session with no registry entry
emits exactly one `error` to the originating connection and leaves the
whole state unchanged; `stop-recording` on a session with no *persisted*
record likewise emits exactly one `error` to the sender and changes
nothing.  (A session absent from the registry but still persisted is,
however, processed by `stop-recording` without an error.) -/
theorem unknown_session_rejected (st : ServerState) (sid : String)
    (chunk : List Nat) (ts : Nat) (tr : Except Unit TranscriptChunk)
    (ct : Option String) (dur : Option Nat)
    (sr : Except Unit MeetingSummary) (ok : Bool) :
    (findEntry sid st.sessionProcessors = none →
      audioChunkHandler st sid chunk ts tr =
        (st, [Outbound.toSender (ServerEvent.errorMsg "Session not found")])) ∧
    (findEntry sid st.dbSessions = none →
      stopRecording st sid ct dur sr ok =
        (st, [Outbound.toSender (ServerEvent.errorMsg "Failed to stop recording")])) := by
  constructor
  · intro h
    simp [audioChunkHandler, h]
  · intro h
    simp [stopRecording, updateSession, h]

/-- Witness for C6 (amended): on a fresh server, both an `audio-chunk`
and a `stop-recording` for an unknown identifier produce exactly the
error emission and no state change. -/
theorem unknown_session_rejected_witness :
    (findEntry "nope" initialState.sessionProcessors = none ∧
      audioChunkHandler initialState "nope" [1, 2] 0 (Except.error ()) =
        (initialState, [Outbound.toSender (ServerEvent.errorMsg "Session not found")])) ∧
    (findEntry "nope" initialState.dbSessions = none ∧
      stopRecording initialState "nope" none none (Except.error ()) true =
        (initialState,
         [Outbound.toSender (ServerEvent.errorMsg "Failed to stop recording")])) :=
  ⟨⟨rfl,
    (unknown_session_rejected initialState "nope" [1, 2] 0 (Except.error ())
      none none (Except.error ()) true).1 rfl⟩,
   ⟨rfl,
    (unknown_session_rejected initialState "nope" [1, 2] 0 (Except.error ())
      none none (Except.error ()) true).2 rfl⟩⟩

/-- C7: when the summarization collaborator call fails, or the insert of
its result fails, `stop-recording` on an existing session persists no
Summary record, still persists the final `COMPLETED` status, removes
both registry entries, and broadcasts `status-update(PROCESSING)`,
`processing-complete`, then `status-update(COMPLETED)`. -/
theorem summary_failure_nonfatal (st : ServerState) (sid : String)
    (ct : Option String) (dur : Option Nat)
    (sr : Except Unit MeetingSummary) (ok : Bool) (r : SessionRecord)
    (h : findEntry sid st.dbSessions = some r)
    (hfail : sr = Except.error () ∨ ok = false) :
    (stopRecording st sid ct dur sr ok).1.dbSummaries = st.dbSummaries ∧
    findEntry sid (stopRecording st sid ct dur sr ok).1.dbSessions =
      some { r with status := SessionStatus.COMPLETED,
                    duration := stopDuration dur r.duration } ∧
    (stopRecording st sid ct dur sr ok).1.sessionProcessors =
      removeEntry sid st.sessionProcessors ∧
    (stopRecording st sid ct dur sr ok).1.sessionTranscripts =
      removeEntry sid st.sessionTranscripts ∧
    (stopRecording st sid ct dur sr ok).2 =
      [Outbound.toRoom sid (ServerEvent.statusUpdate sid SessionStatus.PROCESSING),
       Outbound.toRoom sid
         (ServerEvent.processingComplete sid
           ("/api/sessions/" ++ sid ++ "/download")),
       Outbound.toRoom sid (ServerEvent.statusUpdate sid SessionStatus.COMPLETED)] := by
  rw [stopRecording_found st sid ct dur sr ok r h]
  refine ⟨?_, by simp [findEntry_setEntry_self], rfl, rfl, rfl⟩
  cases sr with
  | error e => rfl
  | ok s =>
      rcases hfail with hfail | hfail
      · simp at hfail
      · simp [hfail]

/-- Witness for C7: stopping the concrete `RECORDING` session with a
failing summarization call persists no Summary, reaches `COMPLETED`,
clears the registry, and emits the three broadcasts. -/
theorem summary_failure_nonfatal_witness :
    (findEntry "s1" recordingState.dbSessions = some recordingRecord ∧
      ((Except.error () : Except Unit MeetingSummary) = Except.error () ∨
        (true = false))) ∧
    ((stopRecording recordingState "s1" none none (Except.error ()) true).1.dbSummaries
        = [] ∧
      findEntry "s1"
          (stopRecording recordingState "s1" none none (Except.error ()) true).1.dbSessions
        = some { userId := "u1", audioSource := "microphone", title := "T",
                 status := SessionStatus.COMPLETED, duration := 5 } ∧
      (stopRecording recordingState "s1" none none (Except.error ()) true).1.sessionProcessors
        = [] ∧
      (stopRecording recordingState "s1" none none (Except.error ()) true).1.sessionTranscripts
        = [] ∧
      (stopRecording recordingState "s1" none none (Except.error ()) true).2 =
        [Outbound.toRoom "s1"
           (ServerEvent.statusUpdate "s1" SessionStatus.PROCESSING),
         Outbound.toRoom "s1"
           (ServerEvent.processingComplete "s1" "/api/sessions/s1/download"),
         Outbound.toRoom "s1"
           (ServerEvent.statusUpdate "s1" SessionStatus.COMPLETED)]) :=
  ⟨⟨by decide, Or.inl rfl⟩,
   summary_failure_nonfatal recordingState "s1" none none (Except.error ()) true
     recordingRecord (by decide) (Or.inl rfl)⟩

/-- C8: `mergeChunks` returns exactly the concatenation of the input
fragments in input order — a pure function of its argument; hence its
length is the sum of the input lengths, and splitting the merged payload
at the original fragment boundaries recovers the original fragments. -/
theorem mergeChunks_concat_roundtrip (chunks : List (List Nat)) :
    AudioProcessor.mergeChunks chunks = chunks.flatten ∧
    (AudioProcessor.mergeChunks chunks).length = sumBytes chunks ∧
    splitSizes (chunks.map List.length) (AudioProcessor.mergeChunks chunks)
      = chunks := by
  refine ⟨mergeChunks_eq_flatten chunks, ?_, ?_⟩
  · rw [mergeChunks_eq_flatten, List.length_flatten, sumBytes_eq]
  · rw [mergeChunks_eq_flatten]
    exact splitSizes_flatten chunks

/-- C9 counterexample: the claim promises the persisted duration equals
any client-supplied value *including 0*, but `...(duration ? { duration }
: {})` treats a supplied `0` as falsy: stopping the concrete session
(stored duration 5) with supplied duration `0` persists `5`, not `0`. -/
theorem duration_zero_ignored_counterexample :
    findEntry "s1"
        (stopRecording recordingState "s1" none (some 0)
          (Except.error ()) true).1.dbSessions
      = some { userId := "u1", audioSource := "microphone", title := "T",
               status := SessionStatus.COMPLETED, duration := 5 } ∧
    (5 : Nat) ≠ 0 := by
  refine ⟨by decide, by decide⟩

/-- C9 (amended): at the end of a successful `stop-recording` the
persisted session record has status `COMPLETED` and duration
`stopDuration` of the supplied value — i.e. the client-supplied value
whenever it is supplied *non-zero* (a supplied `0` is falsy and leaves
the stored duration unchanged, as does an absent value). -/
theorem stop_completed_duration (st : ServerState) (sid : String)
    (ct : Option String) (dur : Option Nat)
    (sr : Except Unit MeetingSummary) (ok : Bool) (r : SessionRecord)
    (h : findEntry sid st.dbSessions = some r) :
    findEntry sid (stopRecording st sid ct dur sr ok).1.dbSessions =
      some { r with status := SessionStatus.COMPLETED,
                    duration := stopDuration dur r.duration } ∧
    (∀ d : Nat, d ≠ 0 → stopDuration (some d) r.duration = d) ∧
    stopDuration (some 0) r.duration = r.duration := by
  rw [stopRecording_found st sid ct dur sr ok r h]
  refine ⟨by simp [findEntry_setEntry_self], ?_, rfl⟩
  intro d hd
  simp [stopDuration, hd]

/-- Witness for C9 (amended): stopping the concrete session (stored
duration 5) with supplied duration 9 persists `COMPLETED` with
duration 9. -/
theorem stop_completed_duration_witness :
    findEntry "s1" recordingState.dbSessions = some recordingRecord ∧
    findEntry "s1"
        (stopRecording recordingState "s1" none (some 9)
          (Except.error ()) true).1.dbSessions
      = some { userId := "u1", audioSource := "microphone", title := "T",
               status := SessionStatus.COMPLETED, duration := 9 } ∧
    stopDuration (some 9) recordingRecord.duration = 9 :=
  ⟨by decide,
   (stop_completed_duration recordingState "s1" none (some 9)
      (Except.error ()) true recordingRecord (by decide)).1,
   (stop_completed_duration recordingState "s1" none (some 9)
      (Except.error ()) true recordingRecord (by decide)).2.1 9 (by decide)⟩

/-- C10: for every sequence of `addChunk`/`clear`/`getAndClearChunks`
operations starting from the empty buffer, the tracked counter returned
by `getBufferSize` equals the sum of the byte lengths of the chunks
currently held, and `getChunkCount` equals the number of held chunks —
the counter never drifts, including across evictions. -/
theorem bufferSize_tracks_contents (ops : List BufferOp) :
    (runOps ops).getBufferSize =
      (((runOps ops).chunks.map List.length).sum : Int) ∧
    (runOps ops).getChunkCount = (runOps ops).chunks.length := by
  refine ⟨?_, rfl⟩
  have h := synced_foldl ops AudioProcessor.empty
    (by simp [synced, AudioProcessor.empty])
  unfold synced at h
  exact h

end ScribeAI
